import Mathlib

/-!
Verification of the GeoScore frontend scoring core against its design
specification.

The repository is a single React component (`GeoScoreTool`).  The scoring
core consists of:

* Identity derivation: `extractBrandName`, `fetchLogo` (pure string and
  URL-hostname manipulation);
* the score engine: `calculateScore` (remote path with guard, error
  surfacing and a local fallback), `calculateLocalScore` (heuristic
  fallback scorer), the sub-checks `checkWikipedia` and
  `checkSchemaMarkup`, and `resetScore`.

JavaScript strings are modelled as `List Char`; the browser `URL`
constructor (an external runtime facility, not part of the repository)
is modelled as an oracle `Option (List Char)` giving the parsed
hostname on success and `none` on parse failure (the `catch` branch of
the source).  `Math.random()` draws are modelled by the floored
natural number they produce (`Math.floor(Math.random() * k)` yields a
value `< k` since `Math.random ∈ [0,1)`), passed in as inputs, and the
network responses of `fetch` are passed in as explicit outcome values.
All component state mutated through React `useState` setters is
collected in `CompState`, and each source function becomes an explicit
state transformer.
-/

namespace GeoScore

/-- JavaScript strings, modelled as lists of characters. -/
abbrev JStr := List Char

/-- `String.prototype.toLowerCase`, modelled character-wise. -/
def jsToLower (s : JStr) : JStr := s.map Char.toLower

/-- Accumulator worker for `splitOnChar`: JavaScript
`String.prototype.split` with a one-character separator keeps empty
segments and always returns at least one segment. -/
def splitAux (sep : Char) : JStr → JStr → List JStr
  | [], acc => [acc.reverse]
  | c :: cs, acc =>
      if c = sep then acc.reverse :: splitAux sep cs []
      else splitAux sep cs (c :: acc)

/-- `s.split(sep)` for a single-character separator `sep`. -/
def splitOnChar (sep : Char) (s : JStr) : List JStr := splitAux sep s []

/-- The segment of `s` before the first occurrence of `sep` (the whole
of `s` when `sep` does not occur): `s.split(sep)[0]`. -/
def takeUntilSep (sep : Char) : JStr → JStr
  | [] => []
  | c :: cs => if c = sep then [] else c :: takeUntilSep sep cs

/-- `String.prototype.replace(search, '')` with a string `search`
pattern: removes the FIRST occurrence of `search` (anywhere in the
string, not only a leading one), and leaves the string unchanged when
`search` does not occur. -/
def replaceFirstBy (search : JStr) : JStr → JStr
  | [] => []
  | c :: cs =>
      if search.isPrefixOf (c :: cs) then (c :: cs).drop search.length
      else c :: replaceFirstBy search cs

/-- `String.prototype.includes(needle)`. -/
def containsSub (needle : JStr) : JStr → Bool
  | [] => needle.isPrefixOf []
  | c :: cs => needle.isPrefixOf (c :: cs) || containsSub needle cs

/-- The literal `'www.'` passed to `hostname.replace('www.', '')`. -/
def wwwDot : JStr := "www.".data

/-- `extractBrandName(inputUrl)` from the source.  `host?` is the oracle
for `new URL(inputUrl).hostname`: `some hostname` when the URL parses,
`none` when the constructor throws.  On success the source removes the
first occurrence of `'www.'` from the hostname, splits on `'.'`, and
returns the first part when there are at least two parts, else the
(replaced) hostname; on failure it lower-cases the raw input and takes
the part before the first `'.'`.  Total: never raises. -/
def extractBrandName (host? : Option JStr) (inputUrl : JStr) : JStr :=
  match host? with
  | some hostname =>
      let h := replaceFirstBy wwwDot hostname
      let parts := splitOnChar '.' h
      if 2 ≤ parts.length then parts.headI else h
  | none => (splitOnChar '.' (jsToLower inputUrl)).headI

/-- The favicon-service URL template of `fetchLogo`. -/
def faviconBase : JStr := "https://www.google.com/s2/favicons?sz=128&domain=".data

/-- `fetchLogo(inputUrl)` from the source: on URL-parse success the
favicon-service URL templated with the hostname, on failure the empty
string.  `host?` is the same hostname oracle as in `extractBrandName`.
Total: never raises. -/
def fetchLogo (host? : Option JStr) : JStr :=
  match host? with
  | some domain => faviconBase ++ domain
  | none => []

/-- Outcome of the Wikipedia API request inside `checkWikipedia`:
`fail` covers every throwing path caught by the `try` (network error,
JSON-parse error, or `data.query` being absent so that `.pages`
access throws); `ok pagesKeys` is a parsed response, where
`pagesKeys = none` models `pages` being absent/null (`!pages`) and
`ok (some keys)` carries `Object.keys(pages)` in order. -/
inductive WikiOutcome
  | fail : WikiOutcome
  | ok : Option (List JStr) → WikiOutcome
deriving DecidableEq

/-- The sentinel page identifier `'-1'` meaning "missing page". -/
def sentinelMissing : JStr := "-1".data

/-- `checkWikipedia(brand)` from the source: `0` on any caught failure,
`0` when `pages` is absent or its first key is `'-1'`, else `20`. -/
def checkWikipedia : WikiOutcome → Nat
  | .fail => 0
  | .ok none => 0
  | .ok (some keys) => if keys.head? = some sentinelMissing then 0 else 20

/-- The literal marker substring tested by `checkSchemaMarkup`. -/
def schemaMarker : JStr := "schema.org".data

/-- `checkSchemaMarkup(inputUrl)` from the source: fetches the page body
through the CORS relay (`none` models any caught failure) and returns
`5` when the body contains `'schema.org'`, else `0`. -/
def checkSchemaMarkup : Option JStr → Nat
  | none => 0
  | some text => if containsSub schemaMarker text then 5 else 0

/-- A `history_links` entry of a ScoreResult payload. -/
structure HistoryLink where
  url : JStr
  title : Option JStr
deriving DecidableEq

/-- The `breakdown` mapping of a ScoreResult (keys in display order). -/
structure Breakdown where
  «recall» : Nat
  wiki : Nat
  seo : Nat
  platforms : Nat
deriving DecidableEq

/-- A ScoreResult as stored in `scoreData`.  The fallback object in the
source additionally duplicates the four sub-scores at top level; those
duplicates equal the `breakdown` fields and are represented once. -/
structure ScoreResult where
  brand : JStr
  total : Nat
  breakdown : Breakdown
  suggestions : List JStr
  history_links : List HistoryLink
deriving DecidableEq

/-- The component state held in `useState` hooks: `url`, `scoreData`,
`logoUrl`, `isCalculating`, `lastCalculatedUrl`, `error`. -/
structure CompState where
  url : JStr
  scoreData : Option ScoreResult
  logoUrl : JStr
  isCalculating : Bool
  lastCalculatedUrl : JStr
  error : JStr
deriving DecidableEq

/-- The initial state of the component's hooks. -/
def initialState : CompState :=
  { url := [], scoreData := none, logoUrl := [], isCalculating := false,
    lastCalculatedUrl := [], error := [] }

/-- Inputs consumed by one run of `calculateLocalScore`: the three
floored `Math.random()` draws (`recallRand = Math.floor(Math.random()*25)`,
`seoRand = Math.floor(Math.random()*10)`, `platRand = Math.floor(Math.random()*5)`,
each `< 25`, `< 10`, `< 5` respectively since `Math.random ∈ [0,1)`),
and the two sub-check network outcomes. -/
structure LocalInputs where
  recallRand : Nat
  seoRand : Nat
  platRand : Nat
  wikiResp : WikiOutcome
  schemaResp : Option JStr
deriving DecidableEq

/-- The ScoreResult object built by `calculateLocalScore` for a given
`url` (read from component state), hostname oracle and inputs. -/
def localResult (host? : Option JStr) (inp : LocalInputs) (url : JStr) : ScoreResult :=
  let brand := extractBrandName host? url
  let «recall» := inp.recallRand + 10
  let wiki := checkWikipedia inp.wikiResp
  let schemaScore := checkSchemaMarkup inp.schemaResp
  let seo := inp.seoRand + 10
  let platforms := min 15 (inp.platRand + 5 + schemaScore)
  let total := «recall» + wiki + seo + platforms
  { brand := brand, total := total,
    breakdown :=
      { «recall» := «recall», wiki := wiki, seo := seo, platforms := platforms },
    suggestions := [], history_links := [] }

/-- `calculateLocalScore()` from the source as a state transformer:
sets `logoUrl` from `fetchLogo(url)` and `scoreData` to the locally
computed ScoreResult.  Reads `url` from the state. -/
def calculateLocalScore (host? : Option JStr) (inp : LocalInputs)
    (st : CompState) : CompState :=
  { st with logoUrl := fetchLogo host?,
            scoreData := some (localResult host? inp st.url) }

/-- Outcome of the primary `fetch('/api/check-score', ...)` call:
a 2xx response with parsed payload (`success`), a non-ok status with a
parseable JSON body whose `detail` field is `detail` (`none` when the
field is absent), a non-ok status whose body fails JSON parsing so
that `response.json()` throws with runtime message `parseMsg`, or a
network/parse failure of the request itself with message `msg`. -/
inductive FetchOutcome
  | success : ScoreResult → FetchOutcome
  | httpError : Option JStr → FetchOutcome
  | httpErrorBadBody : JStr → FetchOutcome
  | networkError : JStr → FetchOutcome
deriving DecidableEq

/-- The generic message of `new Error(errorData.detail || 'Failed to calculate score')`. -/
def failedMsg : JStr := "Failed to calculate score".data

/-- The catch-all of `setError(err.message || 'An error occurred while calculating the score')`. -/
def genericCatchMsg : JStr := "An error occurred while calculating the score".data

/-- `err.message` of the error reaching the `catch` block for each
failing outcome (`errorData.detail || 'Failed to calculate score'`
makes the detail fall back to the generic message when absent or
empty, JavaScript `||` being falsy on `''`). -/
def thrownMessage : FetchOutcome → JStr
  | .success _ => []
  | .httpError (some d) => if d = [] then failedMsg else d
  | .httpError none => failedMsg
  | .httpErrorBadBody m => m
  | .networkError m => m

/-- The entry guard of `calculateScore`:
`if (isCalculating || url === lastCalculatedUrl) return;`. -/
def calcGuard (st : CompState) : Bool :=
  st.isCalculating || st.url == st.lastCalculatedUrl

/-- The entry effects of `calculateScore` once past the guard:
`setIsCalculating(true); setError(''); setLastCalculatedUrl(url)`. -/
def calcEntry (st : CompState) : CompState :=
  { st with isCalculating := true, error := [], lastCalculatedUrl := st.url }

/-- `calculateScore()` from the source as a state transformer.  Returns
the final state together with the number of submissions made to the
remote scoring endpoint (0 when the guard short-circuits, 1 otherwise).
On success the payload is adopted verbatim and the logo set; on any
failure the thrown message (or the catch-all when it is empty) is
stored in `error` and `calculateLocalScore` runs; the `finally` block
clears `isCalculating` on every path past the guard. -/
def calculateScore (host? : Option JStr) (inp : LocalInputs)
    (outcome : FetchOutcome) (st : CompState) : CompState × Nat :=
  if calcGuard st then (st, 0)
  else
    let st1 := calcEntry st
    let st2 :=
      match outcome with
      | .success data =>
          { st1 with scoreData := some data, logoUrl := fetchLogo host? }
      | o =>
          let m := thrownMessage o
          let surfaced := if m = [] then genericCatchMsg else m
          calculateLocalScore host? inp { st1 with error := surfaced }
    ({ st2 with isCalculating := false }, 1)

/-- `resetScore()` from the source: clears `url`, `scoreData`,
`logoUrl`, `lastCalculatedUrl` and `error`.  It does NOT touch
`isCalculating`. -/
def resetScore (st : CompState) : CompState :=
  { st with url := [], scoreData := none, logoUrl := [],
            lastCalculatedUrl := [], error := [] }

/-- Modelled from the spec: the claim's reading of brand derivation for
a parseable URL — strip a LEADING `'www.'` literal from the hostname,
then return the first dot-separated label when the hostname has at
least two labels, else the whole hostname.  Used only to compare the
claimed behaviour with `extractBrandName`. -/
def claimedBrandOfHostname (hostname : JStr) : JStr :=
  let h := if wwwDot.isPrefixOf hostname then hostname.drop wwwDot.length
           else hostname
  if 2 ≤ (splitOnChar '.' hostname).length then (splitOnChar '.' h).headI
  else hostname

/-! ### Helper lemmas on the string model -/

theorem splitAux_headI (sep : Char) (l : JStr) :
    ∀ acc : JStr, (splitAux sep l acc).headI = acc.reverse ++ takeUntilSep sep l := by
  induction l with
  | nil => intro acc; simp [splitAux, takeUntilSep]
  | cons c cs ih =>
      intro acc
      by_cases h : c = sep
      · simp [splitAux, takeUntilSep, h]
      · simp [splitAux, takeUntilSep, h, ih (c :: acc)]

theorem splitOnChar_headI (sep : Char) (l : JStr) :
    (splitOnChar sep l).headI = takeUntilSep sep l := by
  simpa using splitAux_headI sep l []

theorem splitAux_length_pos (sep : Char) (l : JStr) :
    ∀ acc : JStr, 1 ≤ (splitAux sep l acc).length := by
  induction l with
  | nil => intro acc; simp [splitAux]
  | cons c cs ih =>
      intro acc
      by_cases h : c = sep
      · simp [splitAux, h]
      · simpa [splitAux, h] using ih (c :: acc)

theorem takeUntilSep_of_no_split (sep : Char) (l : JStr) :
    ∀ acc : JStr, (splitAux sep l acc).length ≤ 1 → takeUntilSep sep l = l := by
  induction l with
  | nil => intro acc _; rfl
  | cons c cs ih =>
      intro acc hlen
      by_cases h : c = sep
      · exfalso
        have h1 := splitAux_length_pos sep cs ([] : JStr)
        have h2 : (splitAux sep (c :: cs) acc).length
            = (splitAux sep cs ([] : JStr)).length + 1 := by
          simp [splitAux, h]
        omega
      · simp only [splitAux, if_neg h] at hlen
        simp [takeUntilSep, h, ih (c :: acc) hlen]

theorem calculateScore_of_guard_true (host? : Option JStr) (inp : LocalInputs)
    (o : FetchOutcome) (st : CompState) (hg : calcGuard st = true) :
    calculateScore host? inp o st = (st, 0) := by
  simp [calculateScore, hg]

theorem checkWikipedia_eq_zero_or (o : WikiOutcome) :
    checkWikipedia o = 0 ∨ checkWikipedia o = 20 := by
  rcases o with _ | keys
  · exact Or.inl rfl
  · rcases keys with _ | keys
    · exact Or.inl rfl
    · by_cases h : keys.head? = some sentinelMissing
      · exact Or.inl (by simp [checkWikipedia, h])
      · exact Or.inr (by simp [checkWikipedia, h])

theorem checkSchemaMarkup_eq_zero_or (r : Option JStr) :
    checkSchemaMarkup r = 0 ∨ checkSchemaMarkup r = 5 := by
  rcases r with _ | t
  · exact Or.inl rfl
  · by_cases h : containsSub schemaMarker t
    · exact Or.inr (by simp [checkSchemaMarkup, h])
    · exact Or.inl (by simp [checkSchemaMarkup, h])

/-! ### Claims -/

/-- Claim C1: every ScoreResult produced by the fallback path
(`calculateLocalScore`) satisfies
`total = breakdown.recall + breakdown.wiki + breakdown.seo + breakdown.platforms`,
has `breakdown.platforms ≤ 15`, and has empty `suggestions` and
`history_links`. -/
theorem calculateLocalScore_invariants (host? : Option JStr) (inp : LocalInputs)
    (st : CompState) :
    (calculateLocalScore host? inp st).scoreData = some (localResult host? inp st.url) ∧
    (localResult host? inp st.url).total
      = (localResult host? inp st.url).breakdown.«recall»
        + (localResult host? inp st.url).breakdown.wiki
        + (localResult host? inp st.url).breakdown.seo
        + (localResult host? inp st.url).breakdown.platforms ∧
    (localResult host? inp st.url).breakdown.platforms ≤ 15 ∧
    (localResult host? inp st.url).suggestions = [] ∧
    (localResult host? inp st.url).history_links = [] := by
  refine ⟨rfl, rfl, ?_, rfl, rfl⟩
  simp only [localResult]
  exact Nat.min_le_left _ _

/-- Claim C2, counterexample: the source removes the FIRST occurrence of
`'www.'` anywhere in the hostname, not only a leading one.  For the
parseable URL `https://xwww.y.com/` (hostname `xwww.y.com`, three
labels, no leading `www.`), the claim demands the first label `xwww`,
but `extractBrandName` collapses `xwww.y.com` to `xy.com` and returns
`xy`. -/
theorem extractBrandName_leading_www_cex :
    extractBrandName (some ("xwww.y.com".data)) ("https://xwww.y.com/".data)
      = "xy".data ∧
    claimedBrandOfHostname ("xwww.y.com".data) = "xwww".data ∧
    extractBrandName (some ("xwww.y.com".data)) ("https://xwww.y.com/".data)
      ≠ claimedBrandOfHostname ("xwww.y.com".data) := by
  decide

/-- Claim C2 (amended): for every string that parses as a valid absolute
URL, `extractBrandName` removes the first occurrence of the substring
`'www.'` anywhere in the hostname (not only a leading one) and returns
the modified hostname truncated at its first `'.'` — equivalently, the
first label of the modified hostname when it has at least two labels,
and the whole modified hostname otherwise. -/
theorem extractBrandName_first_occurrence (h s : JStr) :
    extractBrandName (some h) s = takeUntilSep '.' (replaceFirstBy wwwDot h) := by
  unfold extractBrandName
  by_cases hlen : 2 ≤ (splitOnChar '.' (replaceFirstBy wwwDot h)).length
  · simp [hlen, splitOnChar_headI]
  · have h1 : (splitAux '.' (replaceFirstBy wwwDot h) []).length ≤ 1 := by
      simp only [splitOnChar] at hlen
      omega
    simp [hlen, takeUntilSep_of_no_split '.' (replaceFirstBy wwwDot h) [] h1]

/-- Claim C7: for every string whose URL parse fails, `extractBrandName`
returns the lower-cased input truncated at its first `'.'` (the whole
lower-cased string when no `'.'` occurs) and `fetchLogo` returns the
empty string.  Both functions are total, so neither ever raises. -/
theorem identity_derivation_on_parse_failure (s : JStr) :
    extractBrandName none s = takeUntilSep '.' (jsToLower s) ∧
    fetchLogo none = [] := by
  exact ⟨by simp [extractBrandName, splitOnChar_headI], rfl⟩

/-- Claim C9: `checkWikipedia` yields 0 on any caught failure, 0 when
the page map is absent, 0 when the first key is the sentinel `'-1'`
and 20 otherwise; `checkSchemaMarkup` yields 5 exactly when the
fetched body contains the literal marker and 0 on any failure.  Both
are total functions (they never propagate an error), always returning
one of their two possible scores. -/
theorem subcheck_failure_semantics :
    checkWikipedia WikiOutcome.fail = 0 ∧
    checkWikipedia (WikiOutcome.ok none) = 0 ∧
    (∀ keys, checkWikipedia (WikiOutcome.ok (some keys))
      = if keys.head? = some sentinelMissing then 0 else 20) ∧
    (∀ o, checkWikipedia o = 0 ∨ checkWikipedia o = 20) ∧
    checkSchemaMarkup none = 0 ∧
    (∀ t, checkSchemaMarkup (some t) = if containsSub schemaMarker t then 5 else 0) ∧
    (∀ r, checkSchemaMarkup r = 0 ∨ checkSchemaMarkup r = 5) :=
  ⟨rfl, rfl, fun _ => rfl, checkWikipedia_eq_zero_or, rfl, fun _ => rfl,
    checkSchemaMarkup_eq_zero_or⟩

/-- The conjunction claimed for the fallback components: recall in
[10,34], seo in [10,19], wiki the 0-or-20 knowledge-base score, and
platforms the clamp `min 15 (r + schemaScore)` with `r ∈ [5,9]` and
`schemaScore ∈ {0,5}`. -/
def fallbackRangesProp (host? : Option JStr) (inp : LocalInputs) (url : JStr) : Prop :=
  10 ≤ (localResult host? inp url).breakdown.«recall» ∧
  (localResult host? inp url).breakdown.«recall» ≤ 34 ∧
  10 ≤ (localResult host? inp url).breakdown.seo ∧
  (localResult host? inp url).breakdown.seo ≤ 19 ∧
  (localResult host? inp url).breakdown.wiki = checkWikipedia inp.wikiResp ∧
  ((localResult host? inp url).breakdown.wiki = 0 ∨
    (localResult host? inp url).breakdown.wiki = 20) ∧
  5 ≤ inp.platRand + 5 ∧ inp.platRand + 5 ≤ 9 ∧
  (checkSchemaMarkup inp.schemaResp = 0 ∨ checkSchemaMarkup inp.schemaResp = 5) ∧
  (localResult host? inp url).breakdown.platforms
    = min 15 (inp.platRand + 5 + checkSchemaMarkup inp.schemaResp)

/-- Claim C4: in every fallback computation, recall is a pseudo-random
integer in [10,34], seo a pseudo-random integer in [10,19], wiki is
the 0-or-20 result of the knowledge-base check, and platforms equals
`min(15, r + schemaScore)` with `r` a pseudo-random integer in [5,9]
and `schemaScore ∈ {0,5}`.  The range hypotheses are the floored
`Math.random()` draws (`Math.random ∈ [0,1)`). -/
theorem localResult_ranges (host? : Option JStr) (inp : LocalInputs) (url : JStr)
    (h1 : inp.recallRand < 25) (h2 : inp.seoRand < 10) (h3 : inp.platRand < 5) :
    fallbackRangesProp host? inp url := by
  refine ⟨?_, ?_, ?_, ?_, rfl, checkWikipedia_eq_zero_or _, ?_, ?_,
    checkSchemaMarkup_eq_zero_or _, rfl⟩
  · show 10 ≤ inp.recallRand + 10
    omega
  · show inp.recallRand + 10 ≤ 34
    omega
  · show 10 ≤ inp.seoRand + 10
    omega
  · show inp.seoRand + 10 ≤ 19
    omega
  · omega
  · omega

/-- Witness for C4: the ranges hold at the concrete draw (0, 0, 0) with
both sub-checks failing. -/
theorem localResult_ranges_witness :
    fallbackRangesProp none ⟨0, 0, 0, WikiOutcome.fail, none⟩ [] :=
  localResult_ranges none ⟨0, 0, 0, WikiOutcome.fail, none⟩ []
    (by decide) (by decide) (by decide)

/-- The conjunction for the implicit clamping claim: the `min 15` clamp
never binds, platforms is at most 14, and total lies in [25,87]. -/
def fallbackBoundsProp (host? : Option JStr) (inp : LocalInputs) (url : JStr) : Prop :=
  (localResult host? inp url).breakdown.platforms
    = inp.platRand + 5 + checkSchemaMarkup inp.schemaResp ∧
  (localResult host? inp url).breakdown.platforms ≤ 14 ∧
  (localResult host? inp url).total ≤ 87 ∧
  25 ≤ (localResult host? inp url).total

/-- Claim C10: in every fallback computation `breakdown.platforms ≤ 14`
(the `min(15, …)` clamp can never bind since its operand is at most
`4 + 5 + 5 = 14`), and consequently `25 ≤ total ≤ 87`. -/
theorem localResult_bounds (host? : Option JStr) (inp : LocalInputs) (url : JStr)
    (h1 : inp.recallRand < 25) (h2 : inp.seoRand < 10) (h3 : inp.platRand < 5) :
    fallbackBoundsProp host? inp url := by
  have hs := checkSchemaMarkup_eq_zero_or inp.schemaResp
  have hw := checkWikipedia_eq_zero_or inp.wikiResp
  have hmin : min 15 (inp.platRand + 5 + checkSchemaMarkup inp.schemaResp)
      = inp.platRand + 5 + checkSchemaMarkup inp.schemaResp := by
    refine Nat.min_eq_right ?_
    rcases hs with hs | hs <;> rw [hs] <;> omega
  refine ⟨?_, ?_, ?_, ?_⟩
  · show min 15 (inp.platRand + 5 + checkSchemaMarkup inp.schemaResp) = _
    exact hmin
  · show min 15 (inp.platRand + 5 + checkSchemaMarkup inp.schemaResp) ≤ 14
    rw [hmin]
    rcases hs with hs | hs <;> rw [hs] <;> omega
  · show inp.recallRand + 10 + checkWikipedia inp.wikiResp + (inp.seoRand + 10)
        + min 15 (inp.platRand + 5 + checkSchemaMarkup inp.schemaResp) ≤ 87
    rw [hmin]
    rcases hs with hs | hs <;> rcases hw with hw | hw <;> rw [hs, hw] <;> omega
  · show 25 ≤ inp.recallRand + 10 + checkWikipedia inp.wikiResp + (inp.seoRand + 10)
        + min 15 (inp.platRand + 5 + checkSchemaMarkup inp.schemaResp)
    rw [hmin]
    rcases hs with hs | hs <;> rcases hw with hw | hw <;> rw [hs, hw] <;> omega

/-- Witness for C10 at the draw (24, 9, 4) with a found knowledge-base
page and present markup. -/
theorem localResult_bounds_witness :
    fallbackBoundsProp none
      ⟨24, 9, 4, WikiOutcome.ok (some [['4', '2']]), some schemaMarker⟩ [] :=
  localResult_bounds none
    ⟨24, 9, 4, WikiOutcome.ok (some [['4', '2']]), some schemaMarker⟩ []
    (by decide) (by decide) (by decide)

/-- Claim C3, counterexample: `calculateScore` performs no empty-url
check.  In the reachable state with `url = ''` (input cleared by the
user) and `lastCalculatedUrl = 'x'` (a previous calculation), the
entry guard does not fire: the call submits one request and mutates
the component state, so an empty url is not a silent no-op. -/
theorem calculateScore_empty_url_cex :
    calcGuard
      { url := [], scoreData := none, logoUrl := [], isCalculating := false,
        lastCalculatedUrl := "x".data, error := [] } = false ∧
    (calculateScore none ⟨0, 0, 0, WikiOutcome.fail, none⟩
        (FetchOutcome.networkError ("network down".data))
        { url := [], scoreData := none, logoUrl := [], isCalculating := false,
          lastCalculatedUrl := "x".data, error := [] }).2 = 1 ∧
    (calculateScore none ⟨0, 0, 0, WikiOutcome.fail, none⟩
        (FetchOutcome.networkError ("network down".data))
        { url := [], scoreData := none, logoUrl := [], isCalculating := false,
          lastCalculatedUrl := "x".data, error := [] }).1
      ≠ { url := [], scoreData := none, logoUrl := [], isCalculating := false,
          lastCalculatedUrl := "x".data, error := [] } := by
  decide

/-- Claim C3 (amended): calling `calculateScore` while a calculation is
in flight, or when `url` equals the most recently requested URL (exact
string equality), is a silent no-op — the function returns immediately
with no state change and no submission.  The function performs no
separate empty-url check: an empty url is suppressed only when the
last requested URL is also empty (as in the initial and post-reset
states, where this guard covers it); the UI separately disables the
trigger button for an empty url. -/
theorem calculateScore_noop_guard (host? : Option JStr) (inp : LocalInputs)
    (outcome : FetchOutcome) (st : CompState)
    (h : st.isCalculating = true ∨ st.url = st.lastCalculatedUrl) :
    calculateScore host? inp outcome st = (st, 0) := by
  have hg : calcGuard st = true := by
    rcases h with h | h <;> simp [calcGuard, h]
  simp [calculateScore, hg]

/-- Witness for C3: in the initial state (`url` and `lastCalculatedUrl`
both empty) the call is a no-op. -/
theorem calculateScore_noop_guard_witness :
    calculateScore none ⟨0, 0, 0, WikiOutcome.fail, none⟩
      (FetchOutcome.networkError []) initialState = (initialState, 0) :=
  calculateScore_noop_guard none ⟨0, 0, 0, WikiOutcome.fail, none⟩
    (FetchOutcome.networkError []) initialState (Or.inr rfl)

/-- The single-flight conjunction: after an un-guarded call, the guard
holds mid-flight (right after entry), exactly one submission was made,
in-flight is cleared on exit for every outcome, the requested URL is
recorded as last-calculated, and an immediately following call with
the same (unchanged) url is a no-op. -/
def singleFlightProp (host? host2 : Option JStr) (inp inp2 : LocalInputs)
    (o o2 : FetchOutcome) (st : CompState) : Prop :=
  calcGuard (calcEntry st) = true ∧
  (calculateScore host? inp o st).2 = 1 ∧
  (calculateScore host? inp o st).1.isCalculating = false ∧
  (calculateScore host? inp o st).1.url = st.url ∧
  (calculateScore host? inp o st).1.lastCalculatedUrl = st.url ∧
  calculateScore host2 inp2 o2 (calculateScore host? inp o st).1
    = ((calculateScore host? inp o st).1, 0)

/-- Claim C5: two immediately successive `calculateScore` calls with the
identical url and no intervening reset perform exactly one submission:
entry marks in-flight and records the requested URL before the result
is known, so the second call is a no-op whether it arrives while the
first is outstanding (in-flight guard) or after it completes
(last-calculated guard), and in-flight is cleared on exit for success
and failure alike. -/
theorem calculateScore_single_flight (host? host2 : Option JStr)
    (inp inp2 : LocalInputs) (o o2 : FetchOutcome) (st : CompState)
    (hg : calcGuard st = false) :
    singleFlightProp host? host2 inp inp2 o o2 st := by
  have hentry : calcGuard (calcEntry st) = true := by
    simp [calcGuard, calcEntry]
  have hfields : (calculateScore host? inp o st).2 = 1 ∧
      (calculateScore host? inp o st).1.isCalculating = false ∧
      (calculateScore host? inp o st).1.url = st.url ∧
      (calculateScore host? inp o st).1.lastCalculatedUrl = st.url := by
    cases o <;> simp [calculateScore, hg, calcEntry, calculateLocalScore]
  obtain ⟨hn, hic, hu, hl⟩ := hfields
  have hg2 : calcGuard (calculateScore host? inp o st).1 = true := by
    simp [calcGuard, hic, hu, hl]
  exact ⟨hentry, hn, hic, hu, hl,
    calculateScore_of_guard_true host2 inp2 o2 _ hg2⟩

/-- Witness for C5 at a concrete fresh state and a successful remote
response, followed by a second attempt for the same url. -/
theorem calculateScore_single_flight_witness :
    singleFlightProp (some ("a.com".data)) (some ("a.com".data))
      ⟨0, 0, 0, WikiOutcome.fail, none⟩ ⟨0, 0, 0, WikiOutcome.fail, none⟩
      (FetchOutcome.success ⟨"a".data, 50, ⟨10, 10, 10, 20⟩, [], []⟩)
      (FetchOutcome.networkError [])
      { url := "https://a.com".data, scoreData := none, logoUrl := [],
        isCalculating := false, lastCalculatedUrl := [], error := [] } :=
  calculateScore_single_flight (some ("a.com".data)) (some ("a.com".data))
    ⟨0, 0, 0, WikiOutcome.fail, none⟩ ⟨0, 0, 0, WikiOutcome.fail, none⟩
    (FetchOutcome.success ⟨"a".data, 50, ⟨10, 10, 10, 20⟩, [], []⟩)
    (FetchOutcome.networkError [])
    { url := "https://a.com".data, scoreData := none, logoUrl := [],
      isCalculating := false, lastCalculatedUrl := [], error := [] }
    (by decide)

/-- The error-surfacing conjunction for a non-success HTTP status: the
`detail` string is surfaced when present and nonempty, the generic
message `'Failed to calculate score'` when absent or empty, the JSON
parse failure's own message (or the catch-all when empty) when the
body is unparseable; in every such case the error is nonempty and the
fallback ScoreResult (with empty `suggestions` and `history_links`) is
stored alongside it. -/
def errorSurfacingProp (host? : Option JStr) (inp : LocalInputs)
    (st : CompState) (d : JStr) : Prop :=
  ((calculateScore host? inp (FetchOutcome.httpError (some d)) st).1.error
    = if d = [] then failedMsg else d) ∧
  (calculateScore host? inp (FetchOutcome.httpError none) st).1.error = failedMsg ∧
  (∀ p : JStr, (calculateScore host? inp (FetchOutcome.httpErrorBadBody p) st).1.error
    = if p = [] then genericCatchMsg else p) ∧
  (∀ b : Option JStr,
    (calculateScore host? inp (FetchOutcome.httpError b) st).1.error ≠ []) ∧
  (∀ b : Option JStr,
    (calculateScore host? inp (FetchOutcome.httpError b) st).1.scoreData
      = some (localResult host? inp st.url)) ∧
  (localResult host? inp st.url).suggestions = [] ∧
  (localResult host? inp st.url).history_links = []

/-- Claim C6: on a non-success HTTP status the engine surfaces the
`detail` string from the JSON error body (falling back to the fixed
message when `detail` is absent or empty, and to the parse failure's
message when the body is unparseable), and this error message is
retained as current error state even though the fallback path then
stores a usable ScoreResult, so both are present simultaneously. -/
theorem calculateScore_error_surfacing (host? : Option JStr) (inp : LocalInputs)
    (st : CompState) (d : JStr) (hg : calcGuard st = false) :
    errorSurfacingProp host? inp st d := by
  have herr : ∀ b : Option JStr,
      (calculateScore host? inp (FetchOutcome.httpError b) st).1.error
        = if thrownMessage (FetchOutcome.httpError b) = [] then genericCatchMsg
          else thrownMessage (FetchOutcome.httpError b) := by
    intro b
    simp [calculateScore, hg, calcEntry, calculateLocalScore]
  refine ⟨?_, ?_, ?_, ?_, ?_, rfl, rfl⟩
  · rw [herr (some d)]
    by_cases hd : d = []
    · subst hd; decide
    · simp [thrownMessage, hd]
  · rw [herr none]
    decide
  · intro p
    simp [calculateScore, hg, calcEntry, calculateLocalScore, thrownMessage]
  · intro b
    rw [herr b]
    rcases b with _ | d2
    · decide
    · by_cases hd : d2 = []
      · subst hd; decide
      · simp [thrownMessage, hd]
  · intro b
    simp [calculateScore, hg, calcEntry, calculateLocalScore]

/-- Witness for C6: the spec scenario — HTTP 500 with body
`{"detail":"quota exceeded"}` in a fresh state. -/
theorem calculateScore_error_surfacing_witness :
    errorSurfacingProp (some ("a.com".data)) ⟨0, 0, 0, WikiOutcome.fail, none⟩
      { url := "https://a.com".data, scoreData := none, logoUrl := [],
        isCalculating := false, lastCalculatedUrl := [], error := [] }
      ("quota exceeded".data) :=
  calculateScore_error_surfacing (some ("a.com".data))
    ⟨0, 0, 0, WikiOutcome.fail, none⟩
    { url := "https://a.com".data, scoreData := none, logoUrl := [],
      isCalculating := false, lastCalculatedUrl := [], error := [] }
    ("quota exceeded".data) (by decide)

/-- Claim C8, counterexample: `resetScore` never touches the in-flight
flag.  Resetting while a calculation is outstanding (the Reset button
stays enabled during a calculation) leaves `isCalculating = true`, so
the CalculationState is not restored to its initial value. -/
theorem resetScore_in_flight_cex :
    (resetScore
      { url := "x".data, scoreData := none, logoUrl := [], isCalculating := true,
        lastCalculatedUrl := "x".data, error := [] }).isCalculating = true ∧
    resetScore
      { url := "x".data, scoreData := none, logoUrl := [], isCalculating := true,
        lastCalculatedUrl := "x".data, error := [] }
      ≠ initialState := by
  decide

/-- The reset conjunction: idempotence, restoration of every field
except the untouched in-flight flag, and release of the duplicate
guard for any nonempty url. -/
def resetProp (st : CompState) (u : JStr) : Prop :=
  resetScore (resetScore st) = resetScore st ∧
  (resetScore st).url = [] ∧
  (resetScore st).scoreData = none ∧
  (resetScore st).logoUrl = [] ∧
  (resetScore st).lastCalculatedUrl = [] ∧
  (resetScore st).error = [] ∧
  (resetScore st).isCalculating = st.isCalculating ∧
  (u == (resetScore st).lastCalculatedUrl) = false

/-- Claim C8 (amended): `resetScore` restores the ScoreResult, the logo
URL, the error state, the url field and the last-calculated URL to
their initial values and is idempotent, and after it a `calculateScore`
call for any previously-used nonempty url is no longer suppressed by
the duplicate guard; it does NOT clear the in-flight flag, so the
CalculationState is only partially restored when a calculation is
outstanding. -/
theorem resetScore_props (st : CompState) (u : JStr) (hu : u ≠ []) :
    resetProp st u := by
  refine ⟨rfl, rfl, rfl, rfl, rfl, rfl, rfl, ?_⟩
  show (u == ([] : JStr)) = false
  simpa using hu

/-- Witness for C8: resetting a dirty state releases the duplicate
guard for the previously calculated url `'u'`. -/
theorem resetScore_props_witness :
    resetProp
      { url := "u".data, scoreData := none, logoUrl := "l".data,
        isCalculating := false, lastCalculatedUrl := "u".data,
        error := "e".data } ("u".data) :=
  resetScore_props
    { url := "u".data, scoreData := none, logoUrl := "l".data,
      isCalculating := false, lastCalculatedUrl := "u".data,
      error := "e".data } ("u".data) (by decide)

end GeoScore
